import Mathlib

/-!
Shallow embedding of `ib_insync/ibcontroller.py`: the `IBC` and
`IBController` process controllers and the `Watchdog` state machine.

Python coroutines are modelled as pure functions from an explicit state
(`CtrlState`, `WatchdogState`) and the relevant external inputs (probe
outcome, error code, contents of the ini file, the sequence of reads seen
by the output monitor) to a new state together with a trace of the
externally visible actions the coroutine performs, in order.  Fallible
paths return `Except PyErr`; a Python exception that is suppressed by a
`with suppress(...)` block does not surface in the result.  Durations in
seconds are rationals.
-/

namespace IbInsync

/-- Models Python `str.endswith` (kernel-reducible, unlike the builtin). -/
def strEndsWith (s suffix : String) : Bool :=
  suffix.data.isSuffixOf s.data

/-- Models Python `str.startswith`. -/
def strStartsWith (s pre : String) : Bool :=
  pre.data.isPrefixOf s.data

/-- Python whitespace for `str.strip`. -/
def isSpaceChar (c : Char) : Bool :=
  c == ' ' || c == '\t' || c == '\n' || c == '\r'

/-- Models Python `str.strip` / configparser line trimming. -/
def strTrim (s : String) : String :=
  String.mk (((s.data.dropWhile isSpaceChar).reverse.dropWhile isSpaceChar).reverse)

/-- Models `str.lower` as configparser's option-name transform. -/
def strToLower (s : String) : String :=
  String.mk (s.data.map Char.toLower)

/-- Split a character list at every occurrence of `sep`. -/
def splitOnChar (sep : Char) : List Char → List (List Char)
  | [] => [[]]
  | c :: rest =>
    if c = sep then [] :: splitOnChar sep rest
    else
      match splitOnChar sep rest with
      | [] => [[c]]
      | g :: gs => (c :: g) :: gs

/-- The lines of a text, models `str.splitlines` as seen by configparser. -/
def strLines (s : String) : List String :=
  (splitOnChar '\n' s.data).map String.mk

/-- Split a line at the first `=`, as configparser's delimiter handling
does; `none` when the line holds no `=`. -/
def splitFirstEq : List Char → Option (List Char × List Char)
  | [] => none
  | c :: rest =>
    if c = '=' then some ([], rest)
    else (splitFirstEq rest).map (fun p => (c :: p.1, p.2))

/-- Models `int(...)` on a trimmed decimal string, as `getint` uses it. -/
def strToNat (s : String) : Option Nat :=
  if s.data ≠ [] ∧ s.data.all Char.isDigit then
    some (s.data.foldl (fun n c => 10 * n + (c.toNat - 48)) 0)
  else none

/-- A Python-level exception, as far as this module can observe one. -/
inductive PyErr where
  | processLookupError
  | noOptionError (key : String)
  deriving DecidableEq, Repr

/-- Externally visible actions of the two process controllers, in the order
the code performs them. -/
inductive Action where
  | spawnShell (cmd : String)
  | spawnShellEnv (cmd : String) (env : List (String × String))
  | startMonitor
  | sendTerminate
  | waitExit
  | clearHandle
  | cancelMonitor
  | logLine (line : String)
  | readFile (path : String)
  | connectTCP (host : String) (port : Nat)
  | writeBytes (data : String)
  | drain
  | closeConn
  deriving DecidableEq, Repr

/-- The mutable fields `_proc` and `_monitor` shared by `IBC` and
`IBController`: an opaque process handle and an opaque monitor-task handle,
each `none` when cleared. -/
structure CtrlState where
  proc : Option Nat
  monitor : Option Nat
  deriving DecidableEq, Repr

/-- `IBC._Args`: the declarative table of `key = (Default, UnixArg,
WindowsArg)` triples, in source order (defaults are all `None` and are
omitted; an absent value is the empty string). -/
def IBC.Args : List (String × String × String) :=
  [("twsVersion", "", ""),
   ("gateway", "--gateway", "/Gateway"),
   ("tradingMode", "--mode=", "/Mode:"),
   ("twsPath", "--tws-path=", "/TwsPath:"),
   ("twsSettingsPath", "--tws-settings-path=", ""),
   ("ibcPath", "--ibc-path=", "/IbcPath:"),
   ("ibcIni", "--ibc-ini=", "/Config:"),
   ("javaPath", "--java-path=", "/JavaPath:"),
   ("userid", "--user=", "/User:"),
   ("password", "--pw=", "/PW:"),
   ("fixuserid", "--fix-user=", "/FIXUser:"),
   ("fixpassword", "--fix-pw=", "/FIXPW:")]

/-- The script path heading the command line in `IBC.startAsync`. -/
def IBC.script (win32 : Bool) (ibcPath : String) : String :=
  if win32 then ibcPath ++ "\\scripts\\StartIBC.bat"
  else ibcPath ++ "/scripts/ibcstart.sh"

/-- Modelled from the spec: the iteration order of `self.dict().items()`
in `IBC.startAsync` — `Object.dict` is defined in `ib_insync/objects.py`,
which is not part of the sources here.  Per the spec the builder walks "a
declarative table of (default, unix-flag, windows-flag) triples", so
`dict()` yields the keys in `IBC.Args` order and `IBC.buildCmd` folds over
`IBC.Args` directly. -/
def IBC.dictKeys : List String :=
  IBC.Args.map Prod.fst

/-- The command line built in `IBC.startAsync`: start from the script path,
then for each table entry with a truthy value append `arg ++ v` when the
platform flag ends in `=` or `:`, the bare flag when the flag is non-empty,
and the bare value otherwise; join with spaces.  `values k = ""` models a
falsy (`None`/empty) configured value. -/
def IBC.buildCmd (win32 : Bool) (ibcPath : String) (values : String → String) : String :=
  let l := IBC.Args.foldl (fun acc kuv =>
    let arg := if win32 then kuv.2.2 else kuv.2.1
    let v := values kuv.1
    if v ≠ "" then
      if strEndsWith arg "=" ∨ strEndsWith arg ":" then acc ++ [arg ++ v]
      else if arg ≠ "" then acc ++ [arg]
      else acc ++ [v]
    else acc) [IBC.script win32 ibcPath]
  String.intercalate " " l

/-- Declarative reading of one table entry of `IBC.buildCmd`: the token the
entry contributes to the command line, if any. -/
def IBC.token (win32 : Bool) (values : String → String) (kuv : String × String × String) :
    Option String :=
  let arg := if win32 then kuv.2.2 else kuv.2.1
  let v := values kuv.1
  if v = "" then none
  else if strEndsWith arg "=" ∨ strEndsWith arg ":" then some (arg ++ v)
  else if arg ≠ "" then some arg
  else some v

/-- `IBC.startAsync`: returns immediately when `self._proc` is set;
otherwise spawns the shell command and starts the output monitor. -/
def IBC.startAsync (s : CtrlState) (win32 : Bool) (ibcPath : String)
    (values : String → String) : CtrlState × List Action :=
  if s.proc.isSome then (s, [])
  else ({ proc := some 1, monitor := some 1 },
    [Action.spawnShell (IBC.buildCmd win32 ibcPath values), Action.startMonitor])

/-- `IBC.terminateAsync`: no-op when `self._proc` is clear; otherwise sends
the terminate signal inside `with suppress(ProcessLookupError)` (when the
process already exited the signal raises and the await of the exit inside
the same block is skipped), then clears `_proc`, cancels the monitor task
and clears `_monitor`.  Never surfaces an exception. -/
def IBC.terminateAsync (s : CtrlState) (alreadyExited : Bool) :
    Except PyErr (CtrlState × List Action) :=
  match s.proc with
  | none => Except.ok (s, [])
  | some _ =>
    let body := if alreadyExited then [Action.sendTerminate]
      else [Action.sendTerminate, Action.waitExit]
    Except.ok ({ proc := none, monitor := none },
      body ++ [Action.clearHandle, Action.cancelMonitor])

/-- One iteration of the output-monitor loop as seen from outside:
`procPresent` is the truthiness of `self._proc` at the `while` test and
`line` the result of the following `readline()` (`""` is end-of-stream). -/
structure MonStep where
  procPresent : Bool
  line : String
  deriving DecidableEq, Repr

/-- `IBC.monitorAsync`: loop while `self._proc` is set, read a line, stop at
end-of-stream, otherwise forward the line to the logger and continue. -/
def IBC.monitorAsync : List MonStep → List Action
  | [] => []
  | st :: rest =>
    if st.procPresent then
      if st.line = "" then []
      else Action.logLine st.line :: IBC.monitorAsync rest
    else []

/-- The `IBController` configuration dict (its `defaults` keys). -/
structure IBControllerCfg where
  APP : String
  TWS_MAJOR_VRSN : String
  TRADING_MODE : String
  IBC_INI : String
  IBC_PATH : String
  TWS_PATH : String
  LOG_PATH : String
  TWSUSERID : String
  TWSPASSWORD : String
  JAVA_PATH : String
  TWS_CONFIG_PATH : String
  deriving DecidableEq, Repr

/-- The configuration as the `key = value` list passed into the spawned
process environment, in `defaults` order. -/
def IBControllerCfg.pairs (c : IBControllerCfg) : List (String × String) :=
  [("APP", c.APP), ("TWS_MAJOR_VRSN", c.TWS_MAJOR_VRSN),
   ("TRADING_MODE", c.TRADING_MODE), ("IBC_INI", c.IBC_INI),
   ("IBC_PATH", c.IBC_PATH), ("TWS_PATH", c.TWS_PATH),
   ("LOG_PATH", c.LOG_PATH), ("TWSUSERID", c.TWSUSERID),
   ("TWSPASSWORD", c.TWSPASSWORD), ("JAVA_PATH", c.JAVA_PATH),
   ("TWS_CONFIG_PATH", c.TWS_CONFIG_PATH)]

/-- Models `os.path.expanduser`: replace a leading `~` by the home
directory. -/
def expandUser (home : String) (p : String) : String :=
  if strStartsWith p "~" then home ++ String.mk (p.data.drop 1) else p

/-- The path expansion step of `IBController.startAsync`: expand every
`*_PATH` and `*_INI` value, then default `TWS_CONFIG_PATH` to `TWS_PATH`. -/
def IBControllerCfg.expand (home : String) (c : IBControllerCfg) : IBControllerCfg :=
  let d : IBControllerCfg :=
    { c with
      IBC_INI := expandUser home c.IBC_INI
      IBC_PATH := expandUser home c.IBC_PATH
      TWS_PATH := expandUser home c.TWS_PATH
      LOG_PATH := expandUser home c.LOG_PATH
      TWS_CONFIG_PATH := expandUser home c.TWS_CONFIG_PATH }
  if d.TWS_CONFIG_PATH = "" then { d with TWS_CONFIG_PATH := d.TWS_PATH } else d

/-- `IBController.startAsync`: returns immediately when `self._proc` is set
(configuration and state untouched); otherwise expands paths, updates the
configuration, spawns `DisplayBannerAndLaunch` with the merged environment
and starts the output monitor. -/
def IBController.startAsync (home : String) (win32 : Bool) (env : List (String × String))
    (cfg : IBControllerCfg) (s : CtrlState) :
    IBControllerCfg × CtrlState × List Action :=
  if s.proc.isSome then (cfg, s, [])
  else
    let d := cfg.expand home
    let ext := if win32 then "bat" else "sh"
    let cmd := d.IBC_PATH ++ "/Scripts/DisplayBannerAndLaunch." ++ ext
    (d, { proc := some 1, monitor := some 1 },
      [Action.spawnShellEnv cmd (env ++ d.pairs), Action.startMonitor])

/-- Models `configparser` on the text `'[section]' + open(ini).read()`:
lines are split, blank/comment lines skipped; a line whose first character
is `[` is a section header (anything after the closing bracket is
discarded, as `configparser`'s section regex does); a `key = value` line
stores the trimmed value under the lowercased trimmed key. -/
def parseIniPairs (txt : String) : List (String × String) :=
  (strLines txt).filterMap (fun rawLine =>
    let line := strTrim rawLine
    if line = "" ∨ strStartsWith line "[" ∨ strStartsWith line "#" ∨ strStartsWith line ";" then
      none
    else
      match splitFirstEq line.data with
      | none => none
      | some kv => some (strToLower (strTrim (String.mk kv.1)), strTrim (String.mk kv.2)))

/-- Models `config.getint('section', key)` over the prepended text. -/
def getIniInt (txt : String) (key : String) : Option Nat :=
  match (parseIniPairs txt).find? (fun kv => kv.1 = strToLower key) with
  | none => none
  | some kv => strToNat kv.2

/-- `IBController.stopAsync`: no-op when `self._proc` is clear; otherwise
read the controller port from the ini file after prepending `'[section]'`,
connect to `127.0.0.1` on that port, write the literal bytes `STOP`, drain,
close, await process exit, and only then clear `_proc`, cancel the monitor
and clear `_monitor`.  A missing port key raises out of `getint`. -/
def IBController.stopAsync (cfg : IBControllerCfg) (iniText : String) (s : CtrlState) :
    Except PyErr (CtrlState × List Action) :=
  if s.proc.isNone then Except.ok (s, [])
  else
    match getIniInt ("[section]" ++ iniText) "IbControllerPort" with
    | none => Except.error (PyErr.noOptionError "IbControllerPort")
    | some contrPort =>
      Except.ok ({ proc := none, monitor := none },
        [Action.readFile cfg.IBC_INI,
         Action.connectTCP "127.0.0.1" contrPort, Action.writeBytes "STOP",
         Action.drain, Action.closeConn, Action.waitExit,
         Action.clearHandle, Action.cancelMonitor])

/-- `IBController.terminateAsync`: textually the same body as
`IBC.terminateAsync`. -/
def IBController.terminateAsync (s : CtrlState) (alreadyExited : Bool) :
    Except PyErr (CtrlState × List Action) :=
  match s.proc with
  | none => Except.ok (s, [])
  | some _ =>
    let body := if alreadyExited then [Action.sendTerminate]
      else [Action.sendTerminate, Action.waitExit]
    Except.ok ({ proc := none, monitor := none },
      body ++ [Action.clearHandle, Action.cancelMonitor])

/-- `IBController.monitorAsync`: same loop as `IBC.monitorAsync` (only the
log level differs). -/
def IBController.monitorAsync : List MonStep → List Action
  | [] => []
  | st :: rest =>
    if st.procPresent then
      if st.line = "" then []
      else Action.logLine st.line :: IBController.monitorAsync rest
    else []

/-- The client object (`self.ib`): either the instance supplied through the
configuration or a fresh `IB()` made by the constructor. -/
inductive IBRef where
  | supplied (n : Nat)
  | fresh
  deriving DecidableEq, Repr

/-- Externally visible actions of the `Watchdog`, in program order. -/
inductive WAction where
  | setApiErrorHandler
  | setErrorCallback
  | spawnWatchTask
  | disconnectIB
  | terminateController
  | scheduleStart (delay : ℚ)
  | issueProbe (contract dur barSize what : String)
  | awaitWithBound (bound : ℚ)
  | setTimeout (t : ℚ)
  | logInfo (s : String)
  | logError (s : String)
  deriving DecidableEq, Repr

/-- The keyword arguments of `Watchdog.__init__` (its `defaults` dict);
`controller = none` models a falsy controller, `ib = none` models the
default `None`. -/
structure WatchdogCfg where
  controller : Option Nat
  host : String
  port : String
  clientId : Nat
  connectTimeout : ℚ
  ib : Option IBRef
  appStartupTime : ℚ
  appTimeout : ℚ
  retryDelay : ℚ
  deriving DecidableEq, Repr

/-- The state a constructed `Watchdog` object holds. -/
structure WatchdogState where
  controller : Nat
  host : String
  port : String
  clientId : Nat
  connectTimeout : ℚ
  ib : IBRef
  appStartupTime : ℚ
  appTimeout : ℚ
  retryDelay : ℚ
  deriving DecidableEq, Repr

/-- `Watchdog.__init__`: assert a truthy controller, `0 < appTimeout < 60`
and `retryDelay > 0` (a failed assert aborts construction, modelled as
`none`); default `self.ib` to a fresh `IB()`; replace the client's
`apiError` handler and the `error` callback with the watchdog's own; and
immediately submit the watch loop with `asyncio.ensure_future`. -/
def Watchdog.init (cfg : WatchdogCfg) : Option (WatchdogState × List WAction) :=
  match cfg.controller with
  | none => none
  | some ctrl =>
    if 0 < cfg.appTimeout ∧ cfg.appTimeout < 60 ∧ 0 < cfg.retryDelay then
      some
        ({ controller := ctrl
           host := cfg.host
           port := cfg.port
           clientId := cfg.clientId
           connectTimeout := cfg.connectTimeout
           ib := cfg.ib.getD IBRef.fresh
           appStartupTime := cfg.appStartupTime
           appTimeout := cfg.appTimeout
           retryDelay := cfg.retryDelay },
         [WAction.setApiErrorHandler, WAction.setErrorCallback, WAction.spawnWatchTask])
    else none

/-- `Watchdog.stop`: disconnect the client, terminate the controller. -/
def Watchdog.stop (_w : WatchdogState) : List WAction :=
  [WAction.logInfo "Stopping", WAction.disconnectIB, WAction.terminateController]

/-- `Watchdog.scheduleRestart` as a trace: one `loop.call_later(retryDelay,
self.start)` call. -/
def Watchdog.scheduleRestart (w : WatchdogState) : List WAction :=
  [WAction.logInfo ("Schedule restart in " ++ toString w.retryDelay ++ "s"),
   WAction.scheduleStart w.retryDelay]

/-- The pending delayed callbacks of the event loop, by delay, in the order
they were scheduled.  `loop.call_later` appends a new callback and touches
no existing one. -/
def callLater (pending : List ℚ) (delay : ℚ) : List ℚ :=
  pending ++ [delay]

/-- `Watchdog.scheduleRestart` as its effect on the event loop's pending
delayed callbacks. -/
def Watchdog.scheduleRestartPending (w : WatchdogState) (pending : List ℚ) : List ℚ :=
  callLater pending w.retryDelay

/-- `Watchdog.onError`: on error code 1100 log, stop and schedule a
restart; on any other code do nothing at all. -/
def Watchdog.onError (w : WatchdogState) (_reqId : Int) (errorCode : Int)
    (errorString : String) : List WAction :=
  if errorCode = 1100 then
    [WAction.logInfo ("Error 1100: " ++ errorString)] ++ Watchdog.stop w ++ Watchdog.scheduleRestart w
  else []

/-- `Watchdog.onApiError`: stop and schedule a restart. -/
def Watchdog.onApiError (w : WatchdogState) : List WAction :=
  Watchdog.stop w ++ Watchdog.scheduleRestart w

/-- The outcome of the bounded probe await in `Watchdog.watchAsync`:
either `asyncio.wait_for` returned the bars list within the bound, or it
raised `TimeoutError`. -/
inductive ProbeOutcome where
  | result (bars : List String)
  | timedOut
  deriving DecidableEq, Repr

/-- The hard bound passed to `asyncio.wait_for` around the probe. -/
def probeBound : ℚ := 4

/-- One iteration of `Watchdog.watchAsync` after the idle-timeout event
fired: issue the historical-data probe for `Forex('EURUSD')`, await it with
the hard bound; a non-empty result re-arms the idle timeout with
`appTimeout`; an empty result raises into the `except` branch, which logs
and performs `stop()` then `scheduleRestart()`, as the timeout case does. -/
def Watchdog.watchIteration (w : WatchdogState) (o : ProbeOutcome) : List WAction :=
  [WAction.issueProbe "EURUSD" "30 S" "5 secs" "MIDPOINT",
   WAction.awaitWithBound probeBound] ++
  (match o with
   | ProbeOutcome.result bars =>
     if bars = [] then
       [WAction.logError "Hard timeout"] ++ Watchdog.stop w ++ Watchdog.scheduleRestart w
     else [WAction.setTimeout w.appTimeout]
   | ProbeOutcome.timedOut =>
     [WAction.logError "Hard timeout"] ++ Watchdog.stop w ++ Watchdog.scheduleRestart w)

/-- Recognizes the delayed-restart action in a trace. -/
def isScheduleStart : WAction → Bool
  | WAction.scheduleStart _ => true
  | _ => false

/-- The `Watchdog.defaults` configuration with a controller attached
(`port` is the string `'7497'` in the source defaults). -/
def cfgGood : WatchdogCfg :=
  { controller := some 1
    host := "127.0.0.1"
    port := "7497"
    clientId := 1
    connectTimeout := 2
    ib := none
    appStartupTime := 30
    appTimeout := 20
    retryDelay := 1 }

/-- A configuration violating `appTimeout < 60`. -/
def cfgBad : WatchdogCfg :=
  { cfgGood with appTimeout := 60 }

/-- The watchdog state `Watchdog.__init__` builds from `cfgGood`. -/
def wGood : WatchdogState :=
  { controller := 1
    host := "127.0.0.1"
    port := "7497"
    clientId := 1
    connectTimeout := 2
    ib := IBRef.fresh
    appStartupTime := 30
    appTimeout := 20
    retryDelay := 1 }

/-- The constructor's action trace. -/
def initActs : List WAction :=
  [WAction.setApiErrorHandler, WAction.setErrorCallback, WAction.spawnWatchTask]

/-- The `IBController.defaults` configuration dict. -/
def demoCtrlCfg : IBControllerCfg :=
  { APP := "TWS"
    TWS_MAJOR_VRSN := "969"
    TRADING_MODE := "live"
    IBC_INI := "~/IBController/IBController.ini"
    IBC_PATH := "~/IBController"
    TWS_PATH := "~/Jts"
    LOG_PATH := "~/IBController/Logs"
    TWSUSERID := ""
    TWSPASSWORD := ""
    JAVA_PATH := ""
    TWS_CONFIG_PATH := "" }

/-- A sample `values` map for the command-line builder: version 969,
gateway mode, paper trading, everything else unset. -/
def demoValues : String → String :=
  fun k =>
    if k = "twsVersion" then "969"
    else if k = "gateway" then "True"
    else if k = "tradingMode" then "paper"
    else ""

theorem monitorAsync_eq_takeWhile (steps : List MonStep) :
    IBC.monitorAsync steps =
      (steps.takeWhile (fun st => st.procPresent && !(st.line == ""))).map
        (fun st => Action.logLine st.line) := by
  induction steps with
  | nil => rfl
  | cons st rest ih =>
    by_cases hp : st.procPresent
    · by_cases hl : st.line = ""
      · have hb : (st.line == "") = true := by simpa using hl
        simp [IBC.monitorAsync, List.takeWhile, hp, hl, hb]
      · have hb : (st.line == "") = false := by simpa using hl
        simp [IBC.monitorAsync, List.takeWhile, hp, hl, hb, ih]
    · simp [IBC.monitorAsync, List.takeWhile, hp]

theorem monitorAsync_controller_eq_ibc (steps : List MonStep) :
    IBController.monitorAsync steps = IBC.monitorAsync steps := by
  induction steps with
  | nil => rfl
  | cons st rest ih =>
    simp only [IBC.monitorAsync, IBController.monitorAsync, ih]

/-- C4: Watchdog construction fails (the `assert` aborts `__init__`) for
every configuration violating `0 < appTimeout < 60` or `retryDelay > 0`,
and every successfully constructed watchdog satisfies these bounds. -/
theorem watchdog_construction_bounds (cfg : WatchdogCfg) :
    ((¬(0 < cfg.appTimeout ∧ cfg.appTimeout < 60) ∨ ¬0 < cfg.retryDelay) →
      Watchdog.init cfg = none) ∧
    (∀ w acts, Watchdog.init cfg = some (w, acts) →
      0 < w.appTimeout ∧ w.appTimeout < 60 ∧ 0 < w.retryDelay) := by
  constructor
  · intro h
    unfold Watchdog.init
    cases cfg.controller with
    | none => rfl
    | some ctrl =>
      simp only
      rw [if_neg]
      tauto
  · intro w acts h
    unfold Watchdog.init at h
    cases hc : cfg.controller with
    | none => rw [hc] at h; exact absurd h (by simp)
    | some ctrl =>
      rw [hc] at h
      dsimp only at h
      by_cases hb : 0 < cfg.appTimeout ∧ cfg.appTimeout < 60 ∧ 0 < cfg.retryDelay
      · rw [if_pos hb] at h
        injection h with h2
        injection h2 with hw ha
        rw [← hw]
        exact hb
      · rw [if_neg hb] at h
        exact absurd h (by simp)

/-- C4 witness: the default configuration with `appTimeout = 60` fails
construction; the default configuration itself satisfies the bounds. -/
theorem watchdog_construction_bounds_witness :
    Watchdog.init cfgBad = none ∧
    (0 < wGood.appTimeout ∧ wGood.appTimeout < 60 ∧ 0 < wGood.retryDelay) :=
  ⟨(watchdog_construction_bounds cfgBad).1 (Or.inl (by decide)),
   (watchdog_construction_bounds cfgGood).2 wGood initActs (by decide)⟩

/-- C10: `Watchdog.__init__` already has side effects before `start()` is
ever called: it replaces the client's api-error handler and `error`
callback and immediately submits the watch-loop task to the event loop (so
an event-loop context must exist at construction), and it creates a fresh
`IB()` client exactly when none was supplied. -/
theorem watchdog_construction_effects (cfg : WatchdogCfg) (w : WatchdogState)
    (acts : List WAction) (h : Watchdog.init cfg = some (w, acts)) :
    acts = [WAction.setApiErrorHandler, WAction.setErrorCallback, WAction.spawnWatchTask] ∧
    WAction.spawnWatchTask ∈ acts ∧
    (cfg.ib = none → w.ib = IBRef.fresh) ∧
    (∀ r, cfg.ib = some r → w.ib = r) := by
  unfold Watchdog.init at h
  cases hc : cfg.controller with
  | none => rw [hc] at h; exact absurd h (by simp)
  | some ctrl =>
    rw [hc] at h
    dsimp only at h
    by_cases hb : 0 < cfg.appTimeout ∧ cfg.appTimeout < 60 ∧ 0 < cfg.retryDelay
    · rw [if_pos hb] at h
      injection h with h2
      injection h2 with hw ha
      refine ⟨ha.symm, by rw [← ha]; simp, ?_, ?_⟩
      · intro hib
        rw [← hw]
        simp [hib]
      · intro r hib
        rw [← hw]
        simp [hib]
    · rw [if_neg hb] at h
      exact absurd h (by simp)

/-- C10 witness: constructing from the defaults (no client supplied)
produces exactly the handler replacements plus the watch-task spawn, and a
fresh client. -/
theorem watchdog_construction_effects_witness :
    initActs =
      [WAction.setApiErrorHandler, WAction.setErrorCallback, WAction.spawnWatchTask] ∧
    wGood.ib = IBRef.fresh :=
  ⟨(watchdog_construction_effects cfgGood wGood initActs (by decide)).1,
   (watchdog_construction_effects cfgGood wGood initActs (by decide)).2.2.1 rfl⟩

/-- C5: while a live process handle exists, `startAsync` of both
controllers is a no-op — it spawns nothing and leaves all state (including
the `IBController` configuration) unchanged. -/
theorem startAsync_noop_when_live (s : CtrlState) (p : Nat) (h : s.proc = some p) :
    (∀ win32 ibcPath values, IBC.startAsync s win32 ibcPath values = (s, [])) ∧
    (∀ home win32 env cfg, IBController.startAsync home win32 env cfg s = (cfg, s, [])) := by
  constructor
  · intro win32 ibcPath values
    simp [IBC.startAsync, h]
  · intro home win32 env cfg
    simp [IBController.startAsync, h]

/-- C5 witness: a second start on a controller with a live handle returns
the state untouched and performs no action. -/
theorem startAsync_noop_when_live_witness :
    IBC.startAsync ⟨some 1, some 1⟩ false "/opt/ibc" demoValues = (⟨some 1, some 1⟩, []) ∧
    IBController.startAsync "/home/u" false [] demoCtrlCfg ⟨some 1, some 1⟩ =
      (demoCtrlCfg, ⟨some 1, some 1⟩, []) :=
  ⟨(startAsync_noop_when_live ⟨some 1, some 1⟩ 1 rfl).1 false "/opt/ibc" demoValues,
   (startAsync_noop_when_live ⟨some 1, some 1⟩ 1 rfl).2 "/home/u" false [] demoCtrlCfg⟩

/-- C6: `terminateAsync` is idempotent — with no process handle it returns
with no effect; with one it sends the terminate signal (suppressing the
process-not-found error of an already-exited process, in which case the
in-block await is skipped), clears the handle and cancels the monitor; it
never surfaces an exception, in particular not in the already-exited
case. -/
theorem terminateAsync_idempotent_safe (s : CtrlState) (b : Bool) :
    (s.proc = none →
      IBC.terminateAsync s b = Except.ok (s, []) ∧
      IBController.terminateAsync s b = Except.ok (s, [])) ∧
    (∀ p, s.proc = some p →
      IBC.terminateAsync s b =
        Except.ok ({ proc := none, monitor := none },
          (if b then [Action.sendTerminate] else [Action.sendTerminate, Action.waitExit]) ++
            [Action.clearHandle, Action.cancelMonitor]) ∧
      IBController.terminateAsync s b = IBC.terminateAsync s b) ∧
    (IBC.terminateAsync s b).isOk = true ∧
    (IBController.terminateAsync s b).isOk = true := by
  refine ⟨?_, ?_, ?_, ?_⟩
  · intro h
    constructor <;> simp [IBC.terminateAsync, IBController.terminateAsync, h]
  · intro p h
    constructor <;> simp [IBC.terminateAsync, IBController.terminateAsync, h]
  · cases h : s.proc <;> simp [IBC.terminateAsync, h, Except.isOk, Except.toBool]
  · cases h : s.proc <;> simp [IBController.terminateAsync, h, Except.isOk, Except.toBool]

/-- C6 witness: terminating an already-stopped controller is a no-op;
terminating a live handle whose process already exited sends the signal,
skips the await, clears everything and still returns normally. -/
theorem terminateAsync_idempotent_safe_witness :
    IBC.terminateAsync ⟨none, none⟩ false = Except.ok (⟨none, none⟩, []) ∧
    IBC.terminateAsync ⟨some 1, some 1⟩ true =
      Except.ok (⟨none, none⟩,
        [Action.sendTerminate, Action.clearHandle, Action.cancelMonitor]) ∧
    (IBC.terminateAsync ⟨some 1, some 1⟩ true).isOk = true :=
  ⟨((terminateAsync_idempotent_safe ⟨none, none⟩ false).1 rfl).1,
   (((terminateAsync_idempotent_safe ⟨some 1, some 1⟩ true).2.1 1 rfl).1 : _),
   (terminateAsync_idempotent_safe ⟨some 1, some 1⟩ true).2.2.1⟩

/-- C9: the output-monitor loop forwards exactly the lines read while the
handle is present and no end-of-stream was hit — it stops at the first
iteration that sees a cleared handle or an empty read — and its trace
holds nothing but log-forwarding actions: it never clears or modifies the
process handle or the monitor field (both controllers behave alike). -/
theorem monitorAsync_forwards_and_frames (steps : List MonStep) :
    IBC.monitorAsync steps =
      (steps.takeWhile (fun st => st.procPresent && !(st.line == ""))).map
        (fun st => Action.logLine st.line) ∧
    IBController.monitorAsync steps = IBC.monitorAsync steps ∧
    (∀ a ∈ IBC.monitorAsync steps, ∃ l, a = Action.logLine l) := by
  refine ⟨monitorAsync_eq_takeWhile steps, monitorAsync_controller_eq_ibc steps, ?_⟩
  intro a ha
  rw [monitorAsync_eq_takeWhile steps] at ha
  obtain ⟨st, _, rfl⟩ := List.mem_map.1 ha
  exact ⟨st.line, rfl⟩

/-- C9 witness: with two lines read alive, then an EOF read, the monitor
forwards exactly the two lines and emits only log actions. -/
theorem monitorAsync_forwards_and_frames_witness :
    IBC.monitorAsync [⟨true, "a"⟩, ⟨true, "b"⟩, ⟨true, ""⟩, ⟨true, "c"⟩] =
      [Action.logLine "a", Action.logLine "b"] ∧
    (∃ l, Action.logLine "a" = Action.logLine l) :=
  ⟨by
    have h := (monitorAsync_forwards_and_frames
      [⟨true, "a"⟩, ⟨true, "b"⟩, ⟨true, ""⟩, ⟨true, "c"⟩]).1
    simpa using h,
   (monitorAsync_forwards_and_frames
      [⟨true, "a"⟩, ⟨true, "b"⟩, ⟨true, ""⟩, ⟨true, "c"⟩]).2.2
      (Action.logLine "a") (by decide)⟩

/-- C1: for every firing of the idle-timeout event, one iteration of
`watchAsync` issues the liveness probe (the small historical-data request)
awaited with the hard bound `probeBound = 4` seconds; a non-empty result
within the bound re-arms the idle timer with `appTimeout` and performs no
stop and no restart; an empty result or an exceeded bound performs `stop()`
followed by exactly one scheduled restart. -/
theorem watchAsync_probe_cycle (w : WatchdogState) (o : ProbeOutcome) :
    probeBound = 4 ∧
    (∀ bars, o = ProbeOutcome.result bars → bars ≠ [] →
      Watchdog.watchIteration w o =
        [WAction.issueProbe "EURUSD" "30 S" "5 secs" "MIDPOINT",
         WAction.awaitWithBound probeBound, WAction.setTimeout w.appTimeout] ∧
      (Watchdog.watchIteration w o).countP isScheduleStart = 0 ∧
      WAction.disconnectIB ∉ Watchdog.watchIteration w o ∧
      WAction.terminateController ∉ Watchdog.watchIteration w o) ∧
    (o = ProbeOutcome.result [] ∨ o = ProbeOutcome.timedOut →
      Watchdog.watchIteration w o =
        [WAction.issueProbe "EURUSD" "30 S" "5 secs" "MIDPOINT",
         WAction.awaitWithBound probeBound, WAction.logError "Hard timeout",
         WAction.logInfo "Stopping", WAction.disconnectIB, WAction.terminateController,
         WAction.logInfo ("Schedule restart in " ++ toString w.retryDelay ++ "s"),
         WAction.scheduleStart w.retryDelay] ∧
      (Watchdog.watchIteration w o).countP isScheduleStart = 1) := by
  refine ⟨rfl, ?_, ?_⟩
  · rintro bars rfl hne
    refine ⟨?_, ?_, ?_, ?_⟩ <;>
      simp [Watchdog.watchIteration, hne, List.countP_cons, isScheduleStart]
  · rintro (rfl | rfl) <;>
      exact ⟨by simp [Watchdog.watchIteration, Watchdog.stop, Watchdog.scheduleRestart],
        by simp [Watchdog.watchIteration, Watchdog.stop, Watchdog.scheduleRestart,
          List.countP_cons, isScheduleStart]⟩

/-- C1 witness: on the default-configured watchdog, a non-empty probe
result re-arms with `appTimeout = 20` and schedules nothing; a probe
timeout produces the stop actions followed by exactly one scheduled
restart. -/
theorem watchAsync_probe_cycle_witness :
    Watchdog.watchIteration wGood (ProbeOutcome.result ["bar"]) =
      [WAction.issueProbe "EURUSD" "30 S" "5 secs" "MIDPOINT",
       WAction.awaitWithBound probeBound, WAction.setTimeout wGood.appTimeout] ∧
    Watchdog.watchIteration wGood ProbeOutcome.timedOut =
      [WAction.issueProbe "EURUSD" "30 S" "5 secs" "MIDPOINT",
       WAction.awaitWithBound probeBound, WAction.logError "Hard timeout",
       WAction.logInfo "Stopping", WAction.disconnectIB, WAction.terminateController,
       WAction.logInfo ("Schedule restart in " ++ toString wGood.retryDelay ++ "s"),
       WAction.scheduleStart wGood.retryDelay] ∧
    (Watchdog.watchIteration wGood ProbeOutcome.timedOut).countP isScheduleStart = 1 :=
  ⟨((watchAsync_probe_cycle wGood (ProbeOutcome.result ["bar"])).2.1 ["bar"] rfl
      (by decide)).1,
   ((watchAsync_probe_cycle wGood ProbeOutcome.timedOut).2.2 (Or.inr rfl)).1,
   ((watchAsync_probe_cycle wGood ProbeOutcome.timedOut).2.2 (Or.inr rfl)).2⟩

/-- C2: `onError` performs `stop()` and schedules a restart exactly when
the error code is 1100; every other code leaves the watchdog untouched
(empty action trace); and the one restart it schedules is a delayed
`call_later` with delay `retryDelay`, which is positive for any validly
constructed watchdog, hence not immediate. -/
theorem onError_fatal_code_only (w : WatchdogState) (reqId code : Int) (es : String)
    (hpos : 0 < w.retryDelay) :
    (code = 1100 →
      Watchdog.onError w reqId code es =
        [WAction.logInfo ("Error 1100: " ++ es), WAction.logInfo "Stopping",
         WAction.disconnectIB, WAction.terminateController,
         WAction.logInfo ("Schedule restart in " ++ toString w.retryDelay ++ "s"),
         WAction.scheduleStart w.retryDelay] ∧
      (Watchdog.onError w reqId code es).countP isScheduleStart = 1) ∧
    (code ≠ 1100 → Watchdog.onError w reqId code es = []) ∧
    (∀ d, WAction.scheduleStart d ∈ Watchdog.onError w reqId code es →
      d = w.retryDelay ∧ 0 < d) := by
  refine ⟨?_, ?_, ?_⟩
  · rintro rfl
    exact ⟨by simp [Watchdog.onError, Watchdog.stop, Watchdog.scheduleRestart],
      by simp [Watchdog.onError, Watchdog.stop, Watchdog.scheduleRestart,
        List.countP_cons, isScheduleStart]⟩
  · intro hne
    simp [Watchdog.onError, hne]
  · intro d hd
    by_cases hc : code = 1100
    · simp [Watchdog.onError, Watchdog.stop, Watchdog.scheduleRestart, hc] at hd
      exact ⟨hd, hd ▸ hpos⟩
    · simp [Watchdog.onError, hc] at hd

/-- C2 witness: code 1100 on the default-configured watchdog triggers the
stop actions plus exactly one restart scheduled with delay `retryDelay`;
code 2104 produces no action at all. -/
theorem onError_fatal_code_only_witness :
    Watchdog.onError wGood 7 1100 "Connectivity lost" =
      [WAction.logInfo "Error 1100: Connectivity lost", WAction.logInfo "Stopping",
       WAction.disconnectIB, WAction.terminateController,
       WAction.logInfo ("Schedule restart in " ++ toString wGood.retryDelay ++ "s"),
       WAction.scheduleStart wGood.retryDelay] ∧
    Watchdog.onError wGood 7 2104 "Market data farm ok" = [] :=
  ⟨((onError_fatal_code_only wGood 7 1100 "Connectivity lost" (by decide)).1 rfl).1,
   (onError_fatal_code_only wGood 7 2104 "Market data farm ok" (by decide)).2.1
     (by decide)⟩

/-- C3 counterexample: `scheduleRestart` stores no token and cancels
nothing — calling it while a previous scheduled restart is still pending
leaves two delayed restart callbacks outstanding, not at most one. -/
theorem scheduleRestart_no_cancellation_counterexample :
    ¬(Watchdog.scheduleRestartPending wGood
        (Watchdog.scheduleRestartPending wGood [])).length ≤ 1 := by
  decide

/-- C3 amended: every call to `scheduleRestart()` adds one more delayed
restart callback via `loop.call_later(retryDelay, self.start)` and leaves
all previously pending ones in place (no `RestartToken` is stored, none is
ever cancelled), so several delayed restarts can be outstanding at once. -/
theorem scheduleRestart_appends_pending (w : WatchdogState) (pending : List ℚ) :
    (Watchdog.scheduleRestartPending w pending).length = pending.length + 1 ∧
    pending <+: Watchdog.scheduleRestartPending w pending ∧
    WAction.scheduleStart w.retryDelay ∈ Watchdog.scheduleRestart w := by
  refine ⟨?_, ⟨[w.retryDelay], rfl⟩, ?_⟩
  · simp [Watchdog.scheduleRestartPending, callLater]
  · simp [Watchdog.scheduleRestart]

theorem buildCmd_step_eq (win32 : Bool) (values : String → String)
    (acc : List String) (kuv : String × String × String) :
    (let arg := if win32 then kuv.2.2 else kuv.2.1
     let v := values kuv.1
     if v ≠ "" then
       if strEndsWith arg "=" ∨ strEndsWith arg ":" then acc ++ [arg ++ v]
       else if arg ≠ "" then acc ++ [arg]
       else acc ++ [v]
     else acc) = acc ++ (IBC.token win32 values kuv).toList := by
  simp only [IBC.token]
  split_ifs <;> simp_all

theorem foldl_tokens (win32 : Bool) (values : String → String) :
    ∀ (xs : List (String × String × String)) (init : List String),
      xs.foldl (fun acc kuv =>
        let arg := if win32 then kuv.2.2 else kuv.2.1
        let v := values kuv.1
        if v ≠ "" then
          if strEndsWith arg "=" ∨ strEndsWith arg ":" then acc ++ [arg ++ v]
          else if arg ≠ "" then acc ++ [arg]
          else acc ++ [v]
        else acc) init = init ++ xs.filterMap (IBC.token win32 values) := by
  intro xs
  induction xs with
  | nil => intro init; simp
  | cons x xs ih =>
    intro init
    rw [List.foldl_cons, buildCmd_step_eq win32 values init x, ih, List.filterMap_cons]
    cases IBC.token win32 values x <;> simp

/-- C7: the command `IBC.startAsync` builds is the space-join of the script
path followed by the tokens the declarative table contributes in order;
an entry with an empty value contributes no token; an entry whose platform
flag ends in `=` or `:` contributes the concatenation of flag and value;
any other entry contributes a bare token — the flag when it is non-empty,
the value itself otherwise. -/
theorem buildCmd_token_table (win32 : Bool) (ibcPath : String) (values : String → String) :
    IBC.buildCmd win32 ibcPath values =
      String.intercalate " "
        (IBC.script win32 ibcPath :: IBC.Args.filterMap (IBC.token win32 values)) ∧
    (∀ kuv : String × String × String, values kuv.1 = "" →
      IBC.token win32 values kuv = none) ∧
    (∀ kuv : String × String × String, values kuv.1 ≠ "" →
      (strEndsWith (if win32 then kuv.2.2 else kuv.2.1) "=" ∨
          strEndsWith (if win32 then kuv.2.2 else kuv.2.1) ":" →
        IBC.token win32 values kuv =
          some ((if win32 then kuv.2.2 else kuv.2.1) ++ values kuv.1)) ∧
      (¬(strEndsWith (if win32 then kuv.2.2 else kuv.2.1) "=" ∨
          strEndsWith (if win32 then kuv.2.2 else kuv.2.1) ":") →
        ((if win32 then kuv.2.2 else kuv.2.1) ≠ "" →
          IBC.token win32 values kuv = some (if win32 then kuv.2.2 else kuv.2.1)) ∧
        ((if win32 then kuv.2.2 else kuv.2.1) = "" →
          IBC.token win32 values kuv = some (values kuv.1)))) := by
  refine ⟨?_, ?_, ?_⟩
  · unfold IBC.buildCmd
    rw [foldl_tokens win32 values IBC.Args [IBC.script win32 ibcPath]]
    rfl
  · intro kuv hv
    simp [IBC.token, hv]
  · intro kuv hv
    constructor
    · intro hend
      simp [IBC.token, hv, hend]
    · intro hend
      constructor
      · intro harg
        simp [IBC.token, hv, hend, harg]
      · intro harg
        simp [IBC.token, hv, hend, harg]

/-- C7 witness: on Linux with version 969, gateway mode and paper trading
configured, the command is the script followed by the bare version token,
the bare `--gateway` flag and the `--mode=paper` flag-value token; the
unset `twsPath` contributes nothing. -/
theorem buildCmd_token_table_witness :
    IBC.buildCmd false "/opt/ibc" demoValues =
      String.intercalate " "
        (IBC.script false "/opt/ibc" :: IBC.Args.filterMap (IBC.token false demoValues)) ∧
    IBC.token false demoValues ("twsPath", "--tws-path=", "/TwsPath:") = none ∧
    IBC.token false demoValues ("tradingMode", "--mode=", "/Mode:") =
      some ("--mode=" ++ "paper") :=
  ⟨(buildCmd_token_table false "/opt/ibc" demoValues).1,
   (buildCmd_token_table false "/opt/ibc" demoValues).2.1
     ("twsPath", "--tws-path=", "/TwsPath:") (by decide),
   ((buildCmd_token_table false "/opt/ibc" demoValues).2.2
     ("tradingMode", "--mode=", "/Mode:") (by decide)).1 (by decide)⟩

/-- C8: with a live process handle, `stopAsync` reads the control port from
the ini file after prepending the implicit `[section]` header, connects to
`127.0.0.1` on that port, writes the literal 4-byte command `STOP`, drains,
closes, awaits process exit, and only after that clears the handle and
cancels the monitor. -/
theorem stopAsync_graceful (cfg : IBControllerCfg) (iniText : String) (s : CtrlState)
    (p contrPort : Nat) (h1 : s.proc = some p)
    (h2 : getIniInt ("[section]" ++ iniText) "IbControllerPort" = some contrPort) :
    IBController.stopAsync cfg iniText s =
      Except.ok ({ proc := none, monitor := none },
        [Action.readFile cfg.IBC_INI, Action.connectTCP "127.0.0.1" contrPort,
         Action.writeBytes "STOP", Action.drain, Action.closeConn, Action.waitExit,
         Action.clearHandle, Action.cancelMonitor]) ∧
    "STOP".length = 4 := by
  constructor
  · simp [IBController.stopAsync, h1, h2]
  · rfl

/-- C8 witness: an ini file holding `IbControllerPort = 7463` drives a
graceful stop over port 7463 with the exact action sequence. -/
theorem stopAsync_graceful_witness :
    IBController.stopAsync demoCtrlCfg "\nIbControllerPort = 7463\n" ⟨some 1, some 1⟩ =
      Except.ok (⟨none, none⟩,
        [Action.readFile demoCtrlCfg.IBC_INI, Action.connectTCP "127.0.0.1" 7463,
         Action.writeBytes "STOP", Action.drain, Action.closeConn, Action.waitExit,
         Action.clearHandle, Action.cancelMonitor]) ∧
    "STOP".length = 4 :=
  stopAsync_graceful demoCtrlCfg "\nIbControllerPort = 7463\n"
    ⟨some 1, some 1⟩ 1 7463 rfl (by decide)

end IbInsync
